import Mathlib

/-!
Verification of the KPI attachment-lifecycle coordinator.

Shallow embedding of the Go sources:
- `models` (part_000): `KPIDevelopment`, `Metadata`, `Attachment`.
- `repositories/kpi_development_repository.go`: document-store and
  GridFS (blob-store) operations, with MongoDB `matchedCount` semantics
  and the `is_deleted != true` conditional filters exactly as in the
  source.
- `services` (part_000): `UploadAttachment`, `DeleteAttachment`,
  `TransferAttachmentBetweenKPIs`, `UpdateKPI`.
- `handlers` (part_002): the `TransferAttachment` handler-level
  validation.
- The `GetKPIPerformanceStats` aggregation pipeline.

ObjectIDs are modelled as `Nat`, timestamps as integer epoch
milliseconds (the Go zero time is `0`), byte streams as `String`
content. Transient infrastructure failures of the individual store
calls are injected through a `Faults` record; a repository call with an
injected fault returns the corresponding error and leaves the stores
unchanged. Every store access is recorded in an event trace so that
"the store was never touched" is expressible. MongoDB multi-document
transactions are modelled by running the transactional steps against
the durable state and publishing document mutations only on commit;
an abort keeps the durable data and only the access trace survives.
-/

deriving instance DecidableEq for Except

namespace KPIProject

/-- models.Attachment: a record-held reference to a GridFS file. -/
structure Attachment where
  fileID : Nat
  filename : String
  deriving Repr, DecidableEq

/-- models.Metadata: audit fields of a KPI record. -/
structure Metadata where
  createdBy : String
  updatedBy : String
  createdAt : Int
  updatedAt : Int
  deriving Repr, DecidableEq

/-- models.KPIDevelopment: one tracked development record. -/
structure KPIDevelopment where
  id : Nat
  goal : String
  description : String
  dueDate : Int
  actualPercent : Int
  attachments : List Attachment
  isDeleted : Bool
  metadata : Metadata
  deriving Repr, DecidableEq

/-- A GridFS blob object: content plus upload metadata. -/
structure BlobObject where
  id : Nat
  filename : String
  content : String
  uploadedBy : String
  uploadedAt : Int
  contentType : String
  deriving Repr, DecidableEq

/-- One access to one of the two stores (document collection or GridFS
bucket), recorded so that "no store access occurred" is a statement
about the trace. -/
inductive StoreEvent where
  | docFind (id : Nat)
  | docUpdate (id : Nat)
  | blobPut (id : Nat)
  | blobGet (id : Nat)
  | blobDelete (id : Nat)
  deriving Repr, DecidableEq

/-- The two stores: the `kpi_developments` collection, the GridFS
bucket, the next fresh GridFS id, and the access trace. -/
structure Stores where
  docs : List KPIDevelopment
  blobs : List BlobObject
  nextBlobID : Nat
  trace : List StoreEvent
  deriving Repr, DecidableEq

/-- Injected transient infrastructure failures for the individual
store calls (a MongoDB / GridFS driver error on that call). -/
structure Faults where
  updateFails : Bool
  uploadFileFails : Bool
  deleteFileFails : Bool
  addAttachmentFails : Bool
  removeAttachmentFails : Bool
  startSessionFails : Bool
  startTransactionFails : Bool
  commitFails : Bool
  deriving Repr, DecidableEq

/-- The all-healthy fault assignment. -/
def noFaults : Faults :=
  ⟨false, false, false, false, false, false, false, false⟩

/-- Faults making only the conditional push (AddAttachment) fail. -/
def pushFaults : Faults := { noFaults with addAttachmentFails := true }

/-- Faults making only the GridFS delete fail. -/
def blobDeleteFaults : Faults := { noFaults with deleteFileFails := true }

/-- Faults making the conditional push and the GridFS delete fail. -/
def pushAndBlobDeleteFaults : Faults :=
  { noFaults with addAttachmentFails := true, deleteFileFails := true }

/-- Errors produced by the repository layer, one constructor per
distinct error the Go repository can return. -/
inductive RepoErr where
  /-- mongo.FindOne decode error: no documents in result. -/
  | noDocuments
  /-- UpdateOne matched zero documents: "no document found with id". -/
  | noDocumentFound (id : Nat)
  /-- Injected failure of bucket.UploadFromStream. -/
  | gridfsUpload
  /-- bucket.Delete / OpenDownloadStream on an absent file id. -/
  | gridfsFileNotFound (id : Nat)
  /-- Injected failure of bucket.Delete. -/
  | gridfsDelete
  /-- Injected failure of collection.UpdateOne. -/
  | updateOne
  deriving Repr, DecidableEq

/-- FindOne on the collection with filter on `_id` only (the source's
GetByID does not filter on `is_deleted`). -/
def findDoc (docs : List KPIDevelopment) (id : Nat) : Option KPIDevelopment :=
  docs.find? (fun r => r.id == id)

/-- Whether the conditional-update filter
`(_id = id and is_deleted != true)` matches at least one document,
i.e. UpdateOne's matchedCount is nonzero. -/
def matchActive (docs : List KPIDevelopment) (id : Nat) : Bool :=
  docs.any (fun r => r.id == id && r.isDeleted == false)

/-- Apply a mutation to every document matched by the conditional
filter `(_id = id and is_deleted != true)`. -/
def updateDocs (docs : List KPIDevelopment) (id : Nat)
    (g : KPIDevelopment → KPIDevelopment) : List KPIDevelopment :=
  docs.map (fun r => if r.id == id && r.isDeleted == false then g r else r)

/-- Replace every document with the given `_id` (the filter of the
repository's Update, which does not check `is_deleted`). -/
def replaceDoc (docs : List KPIDevelopment) (id : Nat)
    (kpi : KPIDevelopment) : List KPIDevelopment :=
  docs.map (fun r => if r.id == id then kpi else r)

/-- repository.GetByID: FindOne on `{_id: id}`; decode error when no
document matches. No `is_deleted` filter is applied. -/
def GetByID (st : Stores) (id : Nat) :
    Except RepoErr KPIDevelopment × Stores :=
  let st1 := { st with trace := st.trace ++ [StoreEvent.docFind id] }
  match findDoc st.docs id with
  | some r => (Except.ok r, st1)
  | none => (Except.error RepoErr.noDocuments, st1)

/-- repository.Update: UpdateOne `{_id: id}` with `$set` of the whole
record; error when matchedCount is zero. -/
def Update (f : Faults) (st : Stores) (id : Nat) (kpi : KPIDevelopment) :
    Except RepoErr Unit × Stores :=
  let st1 := { st with trace := st.trace ++ [StoreEvent.docUpdate id] }
  if f.updateFails then
    (Except.error RepoErr.updateOne, st1)
  else if (findDoc st.docs id).isSome then
    (Except.ok (), { st1 with docs := replaceDoc st.docs id kpi })
  else
    (Except.error (RepoErr.noDocumentFound id), st1)

/-- repository.UploadFile: store the stream in GridFS under a fresh id
with metadata `{uploadedBy, uploadedAt, contentType}`. -/
def UploadFile (f : Faults) (st : Stores) (filename content uploadedBy
    contentType : String) (now : Int) : Except RepoErr Nat × Stores :=
  let fid := st.nextBlobID
  let st1 := { st with trace := st.trace ++ [StoreEvent.blobPut fid] }
  if f.uploadFileFails then
    (Except.error RepoErr.gridfsUpload, st1)
  else
    (Except.ok fid,
      { st1 with
        blobs := st.blobs ++ [⟨fid, filename, content, uploadedBy, now, contentType⟩],
        nextBlobID := st.nextBlobID + 1 })

/-- repository.DownloadFile / BlobStore.get: stream the blob back by
id; error when the file id is absent. -/
def DownloadFile (st : Stores) (fileID : Nat) :
    Except RepoErr BlobObject × Stores :=
  let st1 := { st with trace := st.trace ++ [StoreEvent.blobGet fileID] }
  match st.blobs.find? (fun b => b.id == fileID) with
  | some b => (Except.ok b, st1)
  | none => (Except.error (RepoErr.gridfsFileNotFound fileID), st1)

/-- repository.DeleteFile: bucket.Delete by file id; GridFS errors
when the file id is absent. -/
def DeleteFile (f : Faults) (st : Stores) (fileID : Nat) :
    Except RepoErr Unit × Stores :=
  let st1 := { st with trace := st.trace ++ [StoreEvent.blobDelete fileID] }
  if f.deleteFileFails then
    (Except.error RepoErr.gridfsDelete, st1)
  else if (st.blobs.find? (fun b => b.id == fileID)).isSome then
    (Except.ok (), { st1 with blobs := st.blobs.filter (fun b => b.id != fileID) })
  else
    (Except.error (RepoErr.gridfsFileNotFound fileID), st1)

/-- The update document of AddAttachment: `$push` the attachment onto
`attachments` and `$set` the audit fields. -/
def pushAtt (att : Attachment) (updatedBy : String) (now : Int)
    (r : KPIDevelopment) : KPIDevelopment :=
  { r with attachments := r.attachments ++ [att],
           metadata := { r.metadata with updatedBy := updatedBy,
                                         updatedAt := now } }

/-- The update document of RemoveAttachment: `$pull` every attachment
whose `file_id` matches and `$set` the audit fields. -/
def pullAtt (fileID : Nat) (updatedBy : String) (now : Int)
    (r : KPIDevelopment) : KPIDevelopment :=
  { r with attachments := r.attachments.filter (fun a => a.fileID != fileID),
           metadata := { r.metadata with updatedBy := updatedBy,
                                         updatedAt := now } }

/-- repository.AddAttachment: UpdateOne with filter
`{_id: kpiID, is_deleted: {$ne: true}}` and update `pushAtt`; error
when matchedCount is zero. -/
def AddAttachment (f : Faults) (st : Stores) (kpiID : Nat)
    (att : Attachment) (updatedBy : String) (now : Int) :
    Except RepoErr Unit × Stores :=
  let st1 := { st with trace := st.trace ++ [StoreEvent.docUpdate kpiID] }
  if f.addAttachmentFails then
    (Except.error RepoErr.updateOne, st1)
  else if matchActive st.docs kpiID then
    (Except.ok (),
      { st1 with docs := updateDocs st.docs kpiID (pushAtt att updatedBy now) })
  else
    (Except.error (RepoErr.noDocumentFound kpiID), st1)

/-- repository.RemoveAttachment: UpdateOne with filter
`{_id: kpiID, is_deleted: {$ne: true}}` and update `pullAtt`; error
when matchedCount is zero. -/
def RemoveAttachment (f : Faults) (st : Stores) (kpiID fileID : Nat)
    (updatedBy : String) (now : Int) : Except RepoErr Unit × Stores :=
  let st1 := { st with trace := st.trace ++ [StoreEvent.docUpdate kpiID] }
  if f.removeAttachmentFails then
    (Except.error RepoErr.updateOne, st1)
  else if matchActive st.docs kpiID then
    (Except.ok (),
      { st1 with docs := updateDocs st.docs kpiID (pullAtt fileID updatedBy now) })
  else
    (Except.error (RepoErr.noDocumentFound kpiID), st1)

/-- Errors produced by the service and handler layers; one constructor
per distinct `fmt.Errorf` format string of the source, each carrying
the repository errors interpolated into it. -/
inductive SvcErr where
  /-- service: "KPI not found". -/
  | kpiNotFound (cause : RepoErr)
  /-- upload: "failed to upload file". -/
  | uploadFailed (cause : RepoErr)
  /-- upload: "failed to add attachment to KPI" (returned on append
  failure whether or not the blob cleanup succeeded; a cleanup failure
  is only printed). -/
  | addAttachmentFailed (cause : RepoErr)
  /-- delete: "attachment with file_id not found in KPI". -/
  | attachmentNotInKPI (fileID kpiID : Nat)
  /-- delete: "failed to remove attachment from KPI". -/
  | removeAttachmentFailed (cause : RepoErr)
  /-- delete: "failed to delete file from GridFS" (rollback succeeded). -/
  | deleteFileFailed (cause : RepoErr)
  /-- delete: "failed to delete file from GridFS and rollback failed:
  rollbackCause (original error: origCause)". -/
  | deleteFileRollbackFailed (rollbackCause origCause : RepoErr)
  /-- transfer: "failed to start session". -/
  | startSessionFailed
  /-- transfer: "failed to start transaction". -/
  | startTransactionFailed
  /-- transfer: "source KPI not found". -/
  | sourceKPINotFound (cause : RepoErr)
  /-- transfer: "destination KPI not found". -/
  | destKPINotFound (cause : RepoErr)
  /-- transfer: "attachment with file_id not found in source KPI". -/
  | attachmentNotInSource (fileID : Nat)
  /-- transfer: "failed to remove attachment from source KPI". -/
  | removeFromSourceFailed (cause : RepoErr)
  /-- transfer: "failed to add attachment to destination KPI". -/
  | addToDestFailed (cause : RepoErr)
  /-- transfer: "failed to commit transaction". -/
  | commitFailed
  /-- handler: request rejected before the service is called
  ("Source and destination KPI cannot be the same"). -/
  | validationError
  deriving Repr, DecidableEq

/-- The repository errors a service error carries (chains), in the
order they appear in the corresponding `fmt.Errorf` message. -/
def errorCauses : SvcErr → List RepoErr
  | SvcErr.kpiNotFound e => [e]
  | SvcErr.uploadFailed e => [e]
  | SvcErr.addAttachmentFailed e => [e]
  | SvcErr.attachmentNotInKPI _ _ => []
  | SvcErr.removeAttachmentFailed e => [e]
  | SvcErr.deleteFileFailed e => [e]
  | SvcErr.deleteFileRollbackFailed re oe => [re, oe]
  | SvcErr.startSessionFailed => []
  | SvcErr.startTransactionFailed => []
  | SvcErr.sourceKPINotFound e => [e]
  | SvcErr.destKPINotFound e => [e]
  | SvcErr.attachmentNotInSource _ => []
  | SvcErr.removeFromSourceFailed e => [e]
  | SvcErr.addToDestFailed e => [e]
  | SvcErr.commitFailed => []
  | SvcErr.validationError => []

/-- Whether an upload outcome is the step-1 "KPI not found" failure
(the fetch by id missed), as opposed to any later failure. -/
def isKpiNotFound : Except SvcErr Attachment → Bool
  | Except.error (SvcErr.kpiNotFound _) => true
  | _ => false

/-- service.UploadAttachment: verify the KPI exists, upload the stream
to GridFS, append the attachment reference to the KPI document; if the
append fails, clean up by deleting the just-uploaded blob, and return
the append error (a cleanup failure is only printed, never returned). -/
def UploadAttachment (f : Faults) (st : Stores) (kpiID : Nat)
    (filename content updatedBy contentType : String) (now : Int) :
    Except SvcErr Attachment × Stores :=
  match GetByID st kpiID with
  | (Except.error e, st1) => (Except.error (SvcErr.kpiNotFound e), st1)
  | (Except.ok _, st1) =>
    match UploadFile f st1 filename content updatedBy contentType now with
    | (Except.error e, st2) => (Except.error (SvcErr.uploadFailed e), st2)
    | (Except.ok fileID, st2) =>
      let attachment : Attachment := ⟨fileID, filename⟩
      match AddAttachment f st2 kpiID attachment updatedBy now with
      | (Except.ok _, st3) => (Except.ok attachment, st3)
      | (Except.error e, st3) =>
        let cleanup := DeleteFile f st3 fileID
        (Except.error (SvcErr.addAttachmentFailed e), cleanup.2)

/-- service.DeleteAttachment: fetch the KPI, scan its attachment list
for the file id (capturing the filename of the first match), pull the
reference from the document, then delete the blob; if the blob
deletion fails, roll back by re-adding `{fileID, filename}` and report
the original deletion error, or chain both errors when the rollback
also fails. -/
def DeleteAttachment (f : Faults) (st : Stores) (kpiID fileID : Nat)
    (updatedBy : String) (now : Int) : Except SvcErr Unit × Stores :=
  match GetByID st kpiID with
  | (Except.error e, st1) => (Except.error (SvcErr.kpiNotFound e), st1)
  | (Except.ok kpi, st1) =>
    match kpi.attachments.find? (fun a => a.fileID == fileID) with
    | none => (Except.error (SvcErr.attachmentNotInKPI fileID kpiID), st1)
    | some found =>
      match RemoveAttachment f st1 kpiID fileID updatedBy now with
      | (Except.error e, st2) =>
        (Except.error (SvcErr.removeAttachmentFailed e), st2)
      | (Except.ok _, st2) =>
        match DeleteFile f st2 fileID with
        | (Except.ok _, st3) => (Except.ok (), st3)
        | (Except.error e, st3) =>
          let attachment : Attachment := ⟨fileID, found.filename⟩
          match AddAttachment f st3 kpiID attachment updatedBy now with
          | (Except.ok _, st4) =>
            (Except.error (SvcErr.deleteFileFailed e), st4)
          | (Except.error re, st4) =>
            (Except.error (SvcErr.deleteFileRollbackFailed re e), st4)

/-- service.TransferAttachmentBetweenKPIs: inside one session
transaction, fetch both KPIs, find the attachment in the source, pull
it from the source, push it to the destination, and commit. Any
failure aborts the transaction; abort discards the document mutations
(only the access trace of the attempted steps remains) and the blob
store is never touched. -/
def TransferAttachmentBetweenKPIs (f : Faults) (st : Stores)
    (fromID toID fileID : Nat) (updatedBy : String) (now : Int) :
    Except SvcErr Unit × Stores :=
  if f.startSessionFails then (Except.error SvcErr.startSessionFailed, st)
  else if f.startTransactionFails then
    (Except.error SvcErr.startTransactionFailed, st)
  else
    let abort := fun (e : SvcErr) (work : Stores) =>
      (Except.error e, { st with trace := work.trace })
    match GetByID st fromID with
    | (Except.error e, w1) => abort (SvcErr.sourceKPINotFound e) w1
    | (Except.ok fromKPI, w1) =>
      match GetByID w1 toID with
      | (Except.error e, w2) => abort (SvcErr.destKPINotFound e) w2
      | (Except.ok _, w2) =>
        match fromKPI.attachments.find? (fun a => a.fileID == fileID) with
        | none => abort (SvcErr.attachmentNotInSource fileID) w2
        | some att =>
          match RemoveAttachment f w2 fromID fileID updatedBy now with
          | (Except.error e, w3) => abort (SvcErr.removeFromSourceFailed e) w3
          | (Except.ok _, w3) =>
            match AddAttachment f w3 toID att updatedBy now with
            | (Except.error e, w4) => abort (SvcErr.addToDestFailed e) w4
            | (Except.ok _, w4) =>
              if f.commitFails then abort SvcErr.commitFailed w4
              else (Except.ok (), w4)

/-- handlers.TransferAttachment: after decoding the ids, reject the
request with a validation error when source and destination are equal,
before the service (and hence either store) is reached; otherwise call
the transfer service. -/
def TransferAttachment (f : Faults) (st : Stores)
    (fromID toID fileID : Nat) (username : String) (now : Int) :
    Except SvcErr Unit × Stores :=
  if fromID == toID then (Except.error SvcErr.validationError, st)
  else TransferAttachmentBetweenKPIs f st fromID toID fileID username now

/-- service.UpdateKPI's field merge: overwrite Goal, Description and
DueDate only when the input provides them (non-empty string, non-zero
time); always overwrite ActualPercent and the updatedBy/updatedAt
audit fields. -/
def mergeKPI (existing kpi : KPIDevelopment) (now : Int) : KPIDevelopment :=
  { existing with
      goal := if kpi.goal != "" then kpi.goal else existing.goal,
      description := if kpi.description != "" then kpi.description
                     else existing.description,
      dueDate := if kpi.dueDate != 0 then kpi.dueDate else existing.dueDate,
      actualPercent := kpi.actualPercent,
      metadata := { existing.metadata with
                    updatedBy := kpi.metadata.updatedBy,
                    updatedAt := now } }

/-- service.UpdateKPI: fetch the existing record, merge the provided
fields with `mergeKPI`, then persist via repository.Update. Repository
errors are returned unwrapped. -/
def UpdateKPI (f : Faults) (st : Stores) (id : Nat)
    (kpi : KPIDevelopment) (now : Int) :
    Except RepoErr KPIDevelopment × Stores :=
  match GetByID st id with
  | (Except.error e, st1) => (Except.error e, st1)
  | (Except.ok existing, st1) =>
    let updated := mergeKPI existing kpi now
    match Update f st1 id updated with
    | (Except.error e, st2) => (Except.error e, st2)
    | (Except.ok _, st2) => (Except.ok updated, st2)

/-- The `$switch` of the aggregation pipeline: classify a record's
`actual_percent`, first matching branch wins, evaluated high to low
(the explicit `$eq 0` branch and the default both yield
"Not Started"). -/
def statusOf (p : Int) : String :=
  if p ≥ 100 then "Completed"
  else if p ≥ 50 then "On Track"
  else if p ≥ 25 then "At Risk"
  else if p ≥ 1 then "Behind"
  else "Not Started"

/-- One group of the `$group` stage. -/
structure PerformanceBucket where
  label : String
  count : Nat
  avgCompletion : Rat
  totalAttachments : Nat
  avgDaysUntilDue : Rat
  deriving Repr, DecidableEq

/-- The pipeline's `days_until_due` computed field:
`(due_date - $$NOW) / (1000*60*60*24)` with timestamps in epoch
milliseconds. -/
def daysUntilDue (now : Int) (r : KPIDevelopment) : Rat :=
  ((r.dueDate - now : Int) : Rat) / 86400000

/-- The `$group` accumulators for one status label over the matched
records. -/
def bucketFor (now : Int) (active : List KPIDevelopment)
    (label : String) : PerformanceBucket :=
  let grp := active.filter (fun r => statusOf r.actualPercent == label)
  { label := label
    count := grp.length
    avgCompletion := ((grp.map (fun r => (r.actualPercent : Rat))).sum) / grp.length
    totalAttachments := (grp.map (fun r => r.attachments.length)).sum
    avgDaysUntilDue := ((grp.map (daysUntilDue now)).sum) / grp.length }

/-- The status labels occurring in the matched records that are not in
`seen`, first occurrence first. -/
def groupLabelsAux (seen : List String) :
    List KPIDevelopment → List String
  | [] => []
  | r :: rs =>
    if statusOf r.actualPercent ∈ seen then groupLabelsAux seen rs
    else statusOf r.actualPercent ::
      groupLabelsAux (statusOf r.actualPercent :: seen) rs

/-- The status labels occurring in the matched records, first
occurrence first: the `$group` keys. -/
def groupLabels (l : List KPIDevelopment) : List String :=
  groupLabelsAux [] l

/-- Insert a bucket into a count-descending list, keeping it before
later buckets of equal count. -/
def insertByCountDesc (b : PerformanceBucket) :
    List PerformanceBucket → List PerformanceBucket
  | [] => [b]
  | c :: cs =>
    if b.count ≥ c.count then b :: c :: cs
    else c :: insertByCountDesc b cs

/-- The `$sort: {count: -1}` stage, as a stable insertion sort. -/
def sortByCountDesc : List PerformanceBucket → List PerformanceBucket
  | [] => []
  | b :: bs => insertByCountDesc b (sortByCountDesc bs)

/-- repository.GetKPIPerformanceStats: `$match` the non-deleted
records, classify and group them by status, and `$sort` the groups by
count descending. A status matched by no record produces no group. -/
def GetKPIPerformanceStats (st : Stores) (now : Int) :
    List PerformanceBucket :=
  let active := st.docs.filter (fun r => r.isDeleted == false)
  sortByCountDesc ((groupLabels active).map (bucketFor now active))

/-! Concrete sample stores used by the witness theorems. -/

/-- Sample audit metadata. -/
def sampleMetadata : Metadata := ⟨"alice", "alice", 0, 0⟩

/-- A live record with one attachment (file id 7). -/
def sampleDoc : KPIDevelopment :=
  ⟨1, "goal", "desc", 86400000, 50, [⟨7, "report.pdf"⟩], false, sampleMetadata⟩

/-- A second live record with no attachments. -/
def sampleDoc2 : KPIDevelopment :=
  ⟨2, "goal2", "desc2", 0, 10, [], false, sampleMetadata⟩

/-- A soft-deleted record. -/
def sampleDeletedDoc : KPIDevelopment :=
  ⟨1, "goal", "desc", 0, 50, [], true, sampleMetadata⟩

/-- The blob referenced by `sampleDoc`. -/
def sampleBlob : BlobObject := ⟨7, "report.pdf", "bytes", "alice", 0, "application/pdf"⟩

/-- Stores holding `sampleDoc` and its blob. -/
def sampleStores : Stores := ⟨[sampleDoc], [sampleBlob], 8, []⟩

/-- Stores holding both live records and the blob of `sampleDoc`. -/
def twoDocStores : Stores := ⟨[sampleDoc, sampleDoc2], [sampleBlob], 8, []⟩

/-- Stores holding only the soft-deleted record. -/
def deletedStores : Stores := ⟨[sampleDeletedDoc], [], 0, []⟩

/-! Helper lemmas about the store primitives. -/

theorem matchActive_of_findDoc {docs : List KPIDevelopment} {id : Nat}
    {r : KPIDevelopment} (h : findDoc docs id = some r)
    (hdel : r.isDeleted = false) : matchActive docs id = true := by
  have hmem := List.mem_of_find?_eq_some h
  have hp := List.find?_some h
  simp only [beq_iff_eq] at hp
  simp only [matchActive, List.any_eq_true]
  exact ⟨r, hmem, by simp [hp, hdel]⟩

theorem findDoc_updateDocs {docs : List KPIDevelopment} {id : Nat}
    {g : KPIDevelopment → KPIDevelopment} (hg : ∀ x, (g x).id = x.id)
    {r : KPIDevelopment} (h : findDoc docs id = some r)
    (hdel : r.isDeleted = false) :
    findDoc (updateDocs docs id g) id = some (g r) := by
  induction docs with
  | nil => simp [findDoc] at h
  | cons a as ih =>
    by_cases ha : a.id = id
    · have hr : r = a := by
        simp [findDoc, List.find?_cons_of_pos, ha] at h
        exact h.symm
      subst hr
      simp [findDoc, updateDocs, ha, hdel, List.find?_cons_of_pos, hg]
    · have h' : findDoc as id = some r := by
        simpa [findDoc, List.find?_cons_of_neg, ha] using h
      have := ih h'
      simpa [findDoc, updateDocs, ha, List.find?_cons_of_neg] using this

theorem findDoc_replaceDoc {docs : List KPIDevelopment} {id : Nat}
    {kpi : KPIDevelopment} (hk : kpi.id = id)
    {r : KPIDevelopment} (h : findDoc docs id = some r) :
    findDoc (replaceDoc docs id kpi) id = some kpi := by
  induction docs with
  | nil => simp [findDoc] at h
  | cons a as ih =>
    by_cases ha : a.id = id
    · simp [findDoc, replaceDoc, ha, hk, List.find?_cons_of_pos]
    · have h' : findDoc as id = some r := by
        simpa [findDoc, List.find?_cons_of_neg, ha] using h
      have := ih h'
      simpa [findDoc, replaceDoc, ha, List.find?_cons_of_neg] using this

@[simp]
theorem pushAtt_id (att : Attachment) (u : String) (n : Int)
    (r : KPIDevelopment) : (pushAtt att u n r).id = r.id := rfl

@[simp]
theorem pushAtt_isDeleted (att : Attachment) (u : String) (n : Int)
    (r : KPIDevelopment) : (pushAtt att u n r).isDeleted = r.isDeleted := rfl

@[simp]
theorem pullAtt_id (fileID : Nat) (u : String) (n : Int)
    (r : KPIDevelopment) : (pullAtt fileID u n r).id = r.id := rfl

@[simp]
theorem pullAtt_isDeleted (fileID : Nat) (u : String) (n : Int)
    (r : KPIDevelopment) : (pullAtt fileID u n r).isDeleted = r.isDeleted := rfl

theorem mem_groupLabelsAux (l : List KPIDevelopment) :
    ∀ (seen : List String) (s : String),
      s ∈ groupLabelsAux seen l ↔
        s ∉ seen ∧ ∃ r ∈ l, statusOf r.actualPercent = s := by
  induction l with
  | nil => simp [groupLabelsAux]
  | cons r rs ih =>
    intro seen s
    rw [groupLabelsAux]
    by_cases h : statusOf r.actualPercent ∈ seen
    · rw [if_pos h, ih]
      constructor
      · rintro ⟨hns, x, hx, hs⟩
        exact ⟨hns, x, List.mem_cons_of_mem _ hx, hs⟩
      · rintro ⟨hns, x, hx, hs⟩
        rcases List.mem_cons.mp hx with rfl | hx
        · exact absurd (hs ▸ h) hns
        · exact ⟨hns, x, hx, hs⟩
    · rw [if_neg h]
      simp only [List.mem_cons, ih]
      constructor
      · rintro (rfl | ⟨hns, x, hx, hs⟩)
        · exact ⟨h, r, Or.inl rfl, rfl⟩
        · exact ⟨fun hs2 => hns (Or.inr hs2), x, Or.inr hx, hs⟩
      · rintro ⟨hns, x, hx | hx, hs⟩
        · subst hx; exact Or.inl hs.symm
        · by_cases he : s = statusOf r.actualPercent
          · exact Or.inl he
          · exact Or.inr ⟨fun hmem => by
              rcases hmem with hmem | hmem
              · exact he hmem
              · exact hns hmem, x, hx, hs⟩

theorem mem_groupLabels (l : List KPIDevelopment) (s : String) :
    s ∈ groupLabels l ↔ ∃ r ∈ l, statusOf r.actualPercent = s := by
  rw [groupLabels, mem_groupLabelsAux]
  simp

theorem mem_insertByCountDesc (b c : PerformanceBucket)
    (l : List PerformanceBucket) :
    c ∈ insertByCountDesc b l ↔ c = b ∨ c ∈ l := by
  induction l with
  | nil => simp [insertByCountDesc]
  | cons a as ih =>
    rw [insertByCountDesc]
    split
    · simp only [List.mem_cons]
    · simp only [List.mem_cons, ih]
      tauto

theorem sorted_insertByCountDesc (b : PerformanceBucket)
    (l : List PerformanceBucket)
    (h : l.Pairwise (fun x y => y.count ≤ x.count)) :
    (insertByCountDesc b l).Pairwise (fun x y => y.count ≤ x.count) := by
  induction l with
  | nil => simp [insertByCountDesc]
  | cons a as ih =>
    rw [insertByCountDesc]
    rcases List.pairwise_cons.mp h with ⟨ha, has⟩
    split
    · rename_i hge
      refine List.pairwise_cons.mpr ⟨?_, h⟩
      intro x hx
      rcases List.mem_cons.mp hx with rfl | hx
      · exact hge
      · exact le_trans (ha x hx) hge
    · rename_i hlt
      refine List.pairwise_cons.mpr ⟨?_, ih has⟩
      intro x hx
      rcases (mem_insertByCountDesc b x as).mp hx with rfl | hx
      · exact (not_le.mp hlt).le
      · exact ha x hx

theorem mem_sortByCountDesc (l : List PerformanceBucket)
    (b : PerformanceBucket) : b ∈ sortByCountDesc l ↔ b ∈ l := by
  induction l with
  | nil => simp [sortByCountDesc]
  | cons a as ih =>
    rw [sortByCountDesc, mem_insertByCountDesc]
    simp [ih]

theorem sorted_sortByCountDesc (l : List PerformanceBucket) :
    (sortByCountDesc l).Pairwise (fun x y => y.count ≤ x.count) := by
  induction l with
  | nil => simp [sortByCountDesc]
  | cons a as ih =>
    rw [sortByCountDesc]
    exact sorted_insertByCountDesc a _ ih

/-! ## Claim theorems -/

/-- C1. For every upload: if the document append step fails after the
blob was stored (an infrastructure failure of the conditional push or
a matched-zero because the record vanished or was soft-deleted in
between) and the compensating blob deletion succeeds, the coordinator
deletes the just-created blob: afterwards fetching that blob id from
the blob store returns NotFound, and the operation returns the append
error. -/
theorem c1_upload_compensates_on_append_failure (f : Faults)
    (st : Stores) (kpiID : Nat) (fn content user ct : String) (now : Int)
    (r : KPIDevelopment) (hfind : findDoc st.docs kpiID = some r)
    (hup : f.uploadFileFails = false)
    (hadd : f.addAttachmentFails = true ∨ matchActive st.docs kpiID = false)
    (hclean : f.deleteFileFails = false) :
    (∃ e, (UploadAttachment f st kpiID fn content user ct now).1 =
        Except.error (SvcErr.addAttachmentFailed e)) ∧
    (DownloadFile (UploadAttachment f st kpiID fn content user ct now).2
        st.nextBlobID).1 =
      Except.error (RepoErr.gridfsFileNotFound st.nextBlobID) := by
  have hfound : ((st.blobs ++
      [(⟨st.nextBlobID, fn, content, user, now, ct⟩ : BlobObject)]).find?
        (fun b => b.id == st.nextBlobID)).isSome = true := by
    rw [List.find?_isSome]
    exact ⟨⟨st.nextBlobID, fn, content, user, now, ct⟩,
      List.mem_append_right _ (List.mem_singleton.mpr rfl), by simp⟩
  have hnone : ∀ (l : List BlobObject),
      ((l.filter (fun b => b.id != st.nextBlobID)).find?
        (fun b => b.id == st.nextBlobID)) = none := by
    intro l
    rw [List.find?_eq_none]
    intro x hx
    have := (List.mem_filter.mp hx).2
    simpa using this
  by_cases hf : f.addAttachmentFails = true
  · refine ⟨⟨RepoErr.updateOne, ?_⟩, ?_⟩ <;>
      simp [UploadAttachment, GetByID, hfind, UploadFile, hup, AddAttachment,
        hf, DeleteFile, hclean, hfound, DownloadFile, hnone,
        List.filter_append]
  · have hmatch : matchActive st.docs kpiID = false := by
      rcases hadd with hadd | hadd
      · exact absurd hadd hf
      · exact hadd
    refine ⟨⟨RepoErr.noDocumentFound kpiID, ?_⟩, ?_⟩ <;>
      simp [UploadAttachment, GetByID, hfind, UploadFile, hup, AddAttachment,
        hf, hmatch, DeleteFile, hclean, hfound, DownloadFile, hnone,
        List.filter_append]

/-- Witness for C1 at concrete inputs: the record exists, the
conditional push is made to fail, the compensation succeeds; the
upload returns the append error and the fresh blob id is absent from
the blob store afterwards. -/
theorem c1_witness :
    (∃ e, (UploadAttachment pushFaults
        sampleStores 1 "new.txt" "bytes2" "bob" "text/plain" 5).1 =
        Except.error (SvcErr.addAttachmentFailed e)) ∧
    (DownloadFile (UploadAttachment pushFaults
        sampleStores 1 "new.txt" "bytes2" "bob" "text/plain" 5).2 8).1 =
      Except.error (RepoErr.gridfsFileNotFound 8) :=
  c1_upload_compensates_on_append_failure
    pushFaults sampleStores 1
    "new.txt" "bytes2" "bob" "text/plain" 5 sampleDoc (by decide)
    (by decide) (Or.inl (by decide)) (by decide)

/-- C2. For every delete on a record containing the given blob id: if
the blob-deletion step fails after the reference was removed, the
reference `{fileID, filename}` is re-inserted into the owning record's
attachment list with its original filename (the filename of the first
matching entry, as captured by the scan), the operation reports the
original blob-deletion error (not the rollback's success), and the
blob store is untouched, leaving record and blob store consistent. -/
theorem c2_delete_rolls_back_on_blob_delete_failure (f : Faults)
    (st : Stores) (kpiID fileID : Nat) (user : String) (now : Int)
    (r : KPIDevelopment) (found : Attachment)
    (hfind : findDoc st.docs kpiID = some r)
    (hdel : r.isDeleted = false)
    (hatt : r.attachments.find? (fun a => a.fileID == fileID) = some found)
    (hrm : f.removeAttachmentFails = false)
    (hdf : f.deleteFileFails = true)
    (hadd : f.addAttachmentFails = false) :
    (DeleteAttachment f st kpiID fileID user now).1 =
      Except.error (SvcErr.deleteFileFailed RepoErr.gridfsDelete) ∧
    (∃ r2, findDoc (DeleteAttachment f st kpiID fileID user now).2.docs
        kpiID = some r2 ∧
      (⟨fileID, found.filename⟩ : Attachment) ∈ r2.attachments) ∧
    (DeleteAttachment f st kpiID fileID user now).2.blobs = st.blobs := by
  have hm1 : matchActive st.docs kpiID = true :=
    matchActive_of_findDoc hfind hdel
  have hfd1 : findDoc (updateDocs st.docs kpiID (pullAtt fileID user now))
      kpiID = some (pullAtt fileID user now r) :=
    findDoc_updateDocs (by simp) hfind hdel
  have hdel1 : (pullAtt fileID user now r).isDeleted = false := by
    simp [hdel]
  have hm2 : matchActive (updateDocs st.docs kpiID (pullAtt fileID user now))
      kpiID = true := matchActive_of_findDoc hfd1 hdel1
  have hfd2 : findDoc (updateDocs
      (updateDocs st.docs kpiID (pullAtt fileID user now)) kpiID
      (pushAtt ⟨fileID, found.filename⟩ user now)) kpiID =
      some (pushAtt ⟨fileID, found.filename⟩ user now
        (pullAtt fileID user now r)) :=
    findDoc_updateDocs (by simp) hfd1 hdel1
  refine ⟨?_, ⟨pushAtt ⟨fileID, found.filename⟩ user now
    (pullAtt fileID user now r), ?_, ?_⟩, ?_⟩ <;>
    simp [DeleteAttachment, GetByID, hfind, hatt, RemoveAttachment, hrm,
      hm1, DeleteFile, hdf, AddAttachment, hadd, hm2, hfd2, pushAtt]

/-- Witness for C2 at concrete inputs: the record holds the reference,
the GridFS delete is made to fail, the rollback push succeeds; the
delete reports the original GridFS error, the reference with its
original filename is back in the record, and the blob store is
unchanged. -/
theorem c2_witness :
    (DeleteAttachment blobDeleteFaults
        sampleStores 1 7 "bob" 5).1 =
      Except.error (SvcErr.deleteFileFailed RepoErr.gridfsDelete) ∧
    (∃ r2, findDoc (DeleteAttachment blobDeleteFaults
        sampleStores 1 7 "bob" 5).2.docs 1 = some r2 ∧
      (⟨7, "report.pdf"⟩ : Attachment) ∈ r2.attachments) ∧
    (DeleteAttachment blobDeleteFaults
        sampleStores 1 7 "bob" 5).2.blobs = sampleStores.blobs :=
  c2_delete_rolls_back_on_blob_delete_failure
    blobDeleteFaults sampleStores 1 7 "bob" 5
    sampleDoc ⟨7, "report.pdf"⟩ (by decide) (by decide) (by decide)
    (by decide) (by decide) (by decide)

/-- C3. Transfer is all-or-nothing: for every source and destination
record, if the destination-append step fails, the transaction is
aborted, the document store is left exactly as before (so the
reference is still present in the source record and absent from the
destination record) and the blob store is never touched; no manual
compensation is attempted. -/
theorem c3_transfer_all_or_nothing (f : Faults) (st : Stores)
    (fromID toID fileID : Nat) (user : String) (now : Int)
    (rS rD : KPIDevelopment) (att : Attachment)
    (hs1 : f.startSessionFails = false)
    (hs2 : f.startTransactionFails = false)
    (hrm : f.removeAttachmentFails = false)
    (hadd : f.addAttachmentFails = true)
    (hfrom : findDoc st.docs fromID = some rS)
    (hdelS : rS.isDeleted = false)
    (hatt : rS.attachments.find? (fun a => a.fileID == fileID) = some att)
    (hto : findDoc st.docs toID = some rD)
    (hnotin : ∀ a ∈ rD.attachments, a.fileID ≠ fileID) :
    (TransferAttachmentBetweenKPIs f st fromID toID fileID user now).1 =
      Except.error (SvcErr.addToDestFailed RepoErr.updateOne) ∧
    (TransferAttachmentBetweenKPIs f st fromID toID fileID user now).2.docs
      = st.docs ∧
    (findDoc (TransferAttachmentBetweenKPIs f st fromID toID fileID user
        now).2.docs fromID = some rS ∧
      att ∈ rS.attachments ∧ att.fileID = fileID) ∧
    (findDoc (TransferAttachmentBetweenKPIs f st fromID toID fileID user
        now).2.docs toID = some rD ∧
      ∀ a ∈ rD.attachments, a.fileID ≠ fileID) ∧
    (TransferAttachmentBetweenKPIs f st fromID toID fileID user now).2.blobs
      = st.blobs := by
  have hm1 : matchActive st.docs fromID = true :=
    matchActive_of_findDoc hfrom hdelS
  refine ⟨?_, ?_,
    ⟨?_, List.mem_of_find?_eq_some hatt, by simpa using List.find?_some hatt⟩,
    ⟨?_, hnotin⟩, ?_⟩ <;>
    simp [TransferAttachmentBetweenKPIs, hs1, hs2, GetByID, hfrom, hto,
      hatt, RemoveAttachment, hrm, hm1, AddAttachment, hadd]

/-- Witness for C3 at concrete inputs: two live records, the blob
reference in the first, the destination push made to fail; the
transfer reports the destination-append error, the document store is
unchanged, the reference is still in the source and absent from the
destination, and the blob store is untouched. -/
theorem c3_witness :
    (TransferAttachmentBetweenKPIs pushFaults
        twoDocStores 1 2 7 "bob" 5).1 =
      Except.error (SvcErr.addToDestFailed RepoErr.updateOne) ∧
    (TransferAttachmentBetweenKPIs pushFaults
        twoDocStores 1 2 7 "bob" 5).2.docs = twoDocStores.docs ∧
    (findDoc (TransferAttachmentBetweenKPIs
        pushFaults
        twoDocStores 1 2 7 "bob" 5).2.docs 1 = some sampleDoc ∧
      (⟨7, "report.pdf"⟩ : Attachment) ∈ sampleDoc.attachments ∧
      (⟨7, "report.pdf"⟩ : Attachment).fileID = 7) ∧
    (findDoc (TransferAttachmentBetweenKPIs
        pushFaults
        twoDocStores 1 2 7 "bob" 5).2.docs 2 = some sampleDoc2 ∧
      ∀ a ∈ sampleDoc2.attachments, a.fileID ≠ 7) ∧
    (TransferAttachmentBetweenKPIs pushFaults
        twoDocStores 1 2 7 "bob" 5).2.blobs = twoDocStores.blobs :=
  c3_transfer_all_or_nothing pushFaults
    twoDocStores 1 2 7 "bob" 5 sampleDoc sampleDoc2 ⟨7, "report.pdf"⟩
    (by decide) (by decide) (by decide) (by decide) (by decide)
    (by decide) (by decide) (by decide) (by decide)

/-- C6. For every invocation of the transfer operation (the
TransferAttachment handler) with equal source and destination ids, the
request is rejected with a validation failure and the state — both
stores and the access trace — is returned unchanged: neither store is
accessed. -/
theorem c6_transfer_rejects_equal_ids (f : Faults) (st : Stores)
    (fromID toID fileID : Nat) (user : String) (now : Int)
    (h : fromID = toID) :
    TransferAttachment f st fromID toID fileID user now =
      (Except.error SvcErr.validationError, st) := by
  simp [TransferAttachment, h]

/-- Witness for C6 at concrete inputs: transferring from record 1 to
record 1 is rejected with the validation error and the stores are
returned untouched. -/
theorem c6_witness :
    TransferAttachment noFaults twoDocStores 1 1 7 "bob" 5 =
      (Except.error SvcErr.validationError, twoDocStores) :=
  c6_transfer_rejects_equal_ids noFaults twoDocStores 1 1 7 "bob" 5 rfl

/-- C4, counterexample. Uploading to the soft-deleted record of
`deletedStores`: the operation does not fail with the step-1 NotFound
(GetByID has no `is_deleted` filter, so the fetch succeeds); it fails
only at the conditional append, and by then a blob has been stored —
the `blobPut` access is in the trace, so the blob store is not left
untouched. This refutes both halves of the claim as stated. -/
theorem c4_counterexample :
    (UploadAttachment noFaults deletedStores 1 "f.txt" "bytes" "bob"
        "text/plain" 5).1 =
      Except.error (SvcErr.addAttachmentFailed (RepoErr.noDocumentFound 1)) ∧
    isKpiNotFound (UploadAttachment noFaults deletedStores 1 "f.txt"
        "bytes" "bob" "text/plain" 5).1 = false ∧
    StoreEvent.blobPut 0 ∈ (UploadAttachment noFaults deletedStores 1
        "f.txt" "bytes" "bob" "text/plain" 5).2.trace := by
  decide

/-- C4, amended. For every record whose `isDeleted` flag is true (and
no live record shares its id), UploadAttachment does store a blob
during the operation (`blobPut` appears in the trace); the append then
matches zero documents, so the operation fails with the append error —
not with NotFound from the initial fetch — and the compensation
deletes the blob again, so fetching the new blob id afterwards returns
NotFound. -/
theorem c4_soft_deleted_upload_stores_then_cleans (f : Faults)
    (st : Stores) (kpiID : Nat) (fn content user ct : String) (now : Int)
    (r : KPIDevelopment) (hfind : findDoc st.docs kpiID = some r)
    (hdel : r.isDeleted = true)
    (hm : matchActive st.docs kpiID = false)
    (hup : f.uploadFileFails = false)
    (hf : f.addAttachmentFails = false)
    (hclean : f.deleteFileFails = false) :
    (UploadAttachment f st kpiID fn content user ct now).1 =
      Except.error (SvcErr.addAttachmentFailed
        (RepoErr.noDocumentFound kpiID)) ∧
    StoreEvent.blobPut st.nextBlobID ∈
      (UploadAttachment f st kpiID fn content user ct now).2.trace ∧
    (DownloadFile (UploadAttachment f st kpiID fn content user ct now).2
        st.nextBlobID).1 =
      Except.error (RepoErr.gridfsFileNotFound st.nextBlobID) := by
  have hfound : ((st.blobs ++
      [(⟨st.nextBlobID, fn, content, user, now, ct⟩ : BlobObject)]).find?
        (fun b => b.id == st.nextBlobID)).isSome = true := by
    rw [List.find?_isSome]
    exact ⟨⟨st.nextBlobID, fn, content, user, now, ct⟩,
      List.mem_append_right _ (List.mem_singleton.mpr rfl), by simp⟩
  have hnone : ∀ (l : List BlobObject),
      ((l.filter (fun b => b.id != st.nextBlobID)).find?
        (fun b => b.id == st.nextBlobID)) = none := by
    intro l
    rw [List.find?_eq_none]
    intro x hx
    have := (List.mem_filter.mp hx).2
    simpa using this
  refine ⟨?_, ?_, ?_⟩ <;>
    simp [UploadAttachment, GetByID, hfind, UploadFile, hup, AddAttachment,
      hf, hm, DeleteFile, hclean, hfound, DownloadFile, hnone,
      List.filter_append]

/-- Witness for the amended C4 at concrete inputs: the store holds only
the soft-deleted record; the upload fails with the append error, the
blob store was touched (`blobPut 0` in the trace), and the blob id is
absent afterwards. -/
theorem c4_witness :
    (UploadAttachment noFaults deletedStores 1 "f.txt" "bytes" "bob"
        "text/plain" 5).1 =
      Except.error (SvcErr.addAttachmentFailed (RepoErr.noDocumentFound 1)) ∧
    StoreEvent.blobPut 0 ∈ (UploadAttachment noFaults deletedStores 1
        "f.txt" "bytes" "bob" "text/plain" 5).2.trace ∧
    (DownloadFile (UploadAttachment noFaults deletedStores 1 "f.txt"
        "bytes" "bob" "text/plain" 5).2 0).1 =
      Except.error (RepoErr.gridfsFileNotFound 0) :=
  c4_soft_deleted_upload_stores_then_cleans noFaults deletedStores 1
    "f.txt" "bytes" "bob" "text/plain" 5 sampleDeletedDoc (by decide)
    (by decide) (by decide) (by decide) (by decide) (by decide)

/-- C5, counterexample. With the conditional push and the compensating
blob delete both failing, UploadAttachment returns the plain append
error; the list of repository errors chained into the returned error
is exactly the append cause — the compensation error (the GridFS
delete failure) is not carried, contradicting the claimed chained
CompensationFailure with both causes. -/
theorem c5_counterexample :
    (UploadAttachment pushAndBlobDeleteFaults sampleStores 1 "n.txt" "c" "bob"
        "text/plain" 5).1 =
      Except.error (SvcErr.addAttachmentFailed RepoErr.updateOne) ∧
    RepoErr.gridfsDelete ∉
      errorCauses (SvcErr.addAttachmentFailed RepoErr.updateOne) := by
  decide

/-- C5, amended. For every upload where the document append step fails
(injected push failure) and the compensating blob deletion also fails,
the error returned by UploadAttachment is the plain append error
carrying only the append cause; the compensation failure is only
printed, never returned, and the freshly stored blob remains orphaned
in the blob store. -/
theorem c5_compensation_failure_not_chained (f : Faults) (st : Stores)
    (kpiID : Nat) (fn content user ct : String) (now : Int)
    (r : KPIDevelopment) (hfind : findDoc st.docs kpiID = some r)
    (hup : f.uploadFileFails = false)
    (hadd : f.addAttachmentFails = true)
    (hdf : f.deleteFileFails = true) :
    (UploadAttachment f st kpiID fn content user ct now).1 =
      Except.error (SvcErr.addAttachmentFailed RepoErr.updateOne) ∧
    errorCauses (SvcErr.addAttachmentFailed RepoErr.updateOne) =
      [RepoErr.updateOne] ∧
    (UploadAttachment f st kpiID fn content user ct now).2.blobs =
      st.blobs ++ [⟨st.nextBlobID, fn, content, user, now, ct⟩] := by
  refine ⟨?_, rfl, ?_⟩ <;>
    simp [UploadAttachment, GetByID, hfind, UploadFile, hup, AddAttachment,
      hadd, DeleteFile, hdf]

/-- Witness for the amended C5 at concrete inputs: push and cleanup
both made to fail; the returned error is the plain append error with a
single chained cause and the orphan blob (id 8) stays in the store. -/
theorem c5_witness :
    (UploadAttachment pushAndBlobDeleteFaults sampleStores 1 "n.txt" "c" "bob"
        "text/plain" 5).1 =
      Except.error (SvcErr.addAttachmentFailed RepoErr.updateOne) ∧
    errorCauses (SvcErr.addAttachmentFailed RepoErr.updateOne) =
      [RepoErr.updateOne] ∧
    (UploadAttachment pushAndBlobDeleteFaults sampleStores 1 "n.txt" "c" "bob"
        "text/plain" 5).2.blobs =
      sampleStores.blobs ++ [⟨8, "n.txt", "c", "bob", 5, "text/plain"⟩] :=
  c5_compensation_failure_not_chained
    pushAndBlobDeleteFaults
    sampleStores 1 "n.txt" "c" "bob" "text/plain" 5 sampleDoc
    (by decide) (by decide) (by decide) (by decide)

/-- A live record with the given id and completion percent and no
attachments, due at the epoch. -/
def recPct (i : Nat) (p : Int) : KPIDevelopment :=
  ⟨i, "g", "d", 0, p, [], false, sampleMetadata⟩

/-- The spec's aggregation example: three live records with completion
percents 0, 0 and 100. -/
def aggSampleStores : Stores :=
  ⟨[recPct 1 0, recPct 2 0, recPct 3 100], [], 0, []⟩

/-- C7. For every non-deleted record, the aggregation classifies it by
`actualPercent` into the bucket labelled by the `$switch` thresholds
evaluated high to low, first matching rule wins: the boundary values
0, 1, 24, 25, 49, 50, 99, 100 map to "Not Started", "Behind",
"Behind", "At Risk", "At Risk", "On Track", "On Track", "Completed",
both for the classifier itself and through the whole pipeline on
single-record stores. -/
theorem c7_classification_boundaries :
    ([(0 : Int), 1, 24, 25, 49, 50, 99, 100].map statusOf =
      ["Not Started", "Behind", "Behind", "At Risk", "At Risk",
       "On Track", "On Track", "Completed"]) ∧
    (∀ st : Stores, ∀ now : Int, ∀ r ∈ st.docs, r.isDeleted = false →
      ∃ b ∈ GetKPIPerformanceStats st now,
        b.label = statusOf r.actualPercent) ∧
    (∀ p ∈ [(0 : Int), 1, 24, 25, 49, 50, 99, 100],
      (GetKPIPerformanceStats ⟨[recPct 1 p], [], 0, []⟩ 0).map
        PerformanceBucket.label = [statusOf p]) := by
  refine ⟨by decide, ?_, by decide⟩
  intro st now r hr hdel
  have hact : r ∈ st.docs.filter (fun x => x.isDeleted == false) :=
    List.mem_filter.mpr ⟨hr, by simp [hdel]⟩
  have hlab : statusOf r.actualPercent ∈
      groupLabels (st.docs.filter (fun x => x.isDeleted == false)) :=
    (mem_groupLabels _ _).mpr ⟨r, hact, rfl⟩
  refine ⟨bucketFor now (st.docs.filter (fun x => x.isDeleted == false))
    (statusOf r.actualPercent), ?_, rfl⟩
  rw [GetKPIPerformanceStats]
  rw [mem_sortByCountDesc]
  exact List.mem_map_of_mem _ hlab

/-- Witness for C7's universally quantified part: in the sample
aggregation store, the record with percent 0 yields a bucket labelled
by its classification. -/
theorem c7_witness :
    ∃ b ∈ GetKPIPerformanceStats aggSampleStores 0,
      b.label = statusOf (recPct 1 0).actualPercent :=
  c7_classification_boundaries.2.1 aggSampleStores 0 (recPct 1 0)
    (by decide) (by decide)

theorem aggSample_eval :
    GetKPIPerformanceStats aggSampleStores 0 =
      [⟨"Not Started", 2, 0, 0, 0⟩, ⟨"Completed", 1, 100, 0, 0⟩] := by
  have h1 : aggSampleStores.docs.filter (fun r => r.isDeleted == false) =
      aggSampleStores.docs := by decide
  have h2 : groupLabels aggSampleStores.docs =
      ["Not Started", "Completed"] := by decide
  have hg1 : aggSampleStores.docs.filter
      (fun r => statusOf r.actualPercent == "Not Started") =
      [recPct 1 0, recPct 2 0] := by decide
  have hg2 : aggSampleStores.docs.filter
      (fun r => statusOf r.actualPercent == "Completed") =
      [recPct 3 100] := by decide
  have hb1 : bucketFor 0 aggSampleStores.docs "Not Started" =
      ⟨"Not Started", 2, 0, 0, 0⟩ := by
    rw [bucketFor, hg1]
    norm_num [recPct, daysUntilDue, PerformanceBucket.mk.injEq]
  have hb2 : bucketFor 0 aggSampleStores.docs "Completed" =
      ⟨"Completed", 1, 100, 0, 0⟩ := by
    rw [bucketFor, hg2]
    norm_num [recPct, daysUntilDue, PerformanceBucket.mk.injEq]
  simp only [GetKPIPerformanceStats, h1, h2, List.map_cons, List.map_nil,
    hb1, hb2]
  rw [sortByCountDesc, sortByCountDesc, sortByCountDesc,
    insertByCountDesc, insertByCountDesc]
  norm_num

/-- C8. The aggregation emits no bucket whose count is zero (a status
matched by no record produces no group at all), emits the groups
sorted by count descending, and on records with percents
`[0, 0, 100]` returns exactly the buckets
`("Not Started", 2, avg 0)` then `("Completed", 1, avg 100)`. -/
theorem c8_bucket_omission_and_sorting :
    (∀ st : Stores, ∀ now : Int, ∀ b ∈ GetKPIPerformanceStats st now,
      0 < b.count) ∧
    (∀ st : Stores, ∀ now : Int,
      (GetKPIPerformanceStats st now).Pairwise
        (fun x y => y.count ≤ x.count)) ∧
    ((GetKPIPerformanceStats aggSampleStores 0).map
        (fun b => (b.label, b.count, b.avgCompletion)) =
      [("Not Started", 2, (0 : Rat)), ("Completed", 1, (100 : Rat))]) := by
  refine ⟨?_, ?_, by rw [aggSample_eval]; rfl⟩
  · intro st now b hb
    rw [GetKPIPerformanceStats, mem_sortByCountDesc] at hb
    rcases List.mem_map.mp hb with ⟨s, hs, hbs⟩
    rcases (mem_groupLabels _ _).mp hs with ⟨r, hr, hrs⟩
    have hmem : r ∈ (st.docs.filter (fun x => x.isDeleted == false)).filter
        (fun x => statusOf x.actualPercent == s) :=
      List.mem_filter.mpr ⟨hr, by simp [hrs]⟩
    have hlen := List.length_pos_of_mem hmem
    rw [← hbs]
    simpa [bucketFor] using hlen
  · intro st now
    rw [GetKPIPerformanceStats]
    exact sorted_sortByCountDesc _

/-- Witness for C8's universally quantified parts: in the sample
aggregation store the "Not Started" bucket has positive count, and the
emitted list is count-descending. -/
theorem c8_witness :
    (0 : Nat) <
      (⟨"Not Started", 2, 0, 0, 0⟩ : PerformanceBucket).count ∧
    (GetKPIPerformanceStats aggSampleStores 0).Pairwise
      (fun x y => y.count ≤ x.count) :=
  ⟨c8_bucket_omission_and_sorting.1 aggSampleStores 0
      ⟨"Not Started", 2, 0, 0, 0⟩ (by rw [aggSample_eval]; simp),
    c8_bucket_omission_and_sorting.2.1 aggSampleStores 0⟩

/-- The update input sent by a caller whose JSON body omitted every
optional field: zero values throughout, with only the audit updatedBy
set by the handler. -/
def zeroInput : KPIDevelopment :=
  ⟨0, "", "", 0, 0, [], false, ⟨"", "bob", 0, 0⟩⟩

/-- C9. For every existing record, an update whose input carries
`actualPercent = 0` — including an input that omitted the field, since
JSON decoding yields the zero value — persists `actualPercent = 0` on
the stored record, overwriting any previous completion. -/
theorem c9_update_persists_zero_percent (f : Faults) (st : Stores)
    (id : Nat) (kpi : KPIDevelopment) (now : Int) (r : KPIDevelopment)
    (hfind : findDoc st.docs id = some r)
    (hz : kpi.actualPercent = 0)
    (hupd : f.updateFails = false) :
    ∃ u, (UpdateKPI f st id kpi now).1 = Except.ok u ∧
      u.actualPercent = 0 ∧
      findDoc (UpdateKPI f st id kpi now).2.docs id = some u := by
  have hid : r.id = id := by simpa using List.find?_some hfind
  have hmid : (mergeKPI r kpi now).id = id := hid
  have hsome : (findDoc st.docs id).isSome = true := by rw [hfind]; rfl
  have hrep := findDoc_replaceDoc hmid hfind
  refine ⟨mergeKPI r kpi now, ?_, by simp [mergeKPI, hz], ?_⟩ <;>
    simp [UpdateKPI, GetByID, hfind, Update, hupd, hsome, hrep]

/-- Witness for C9 at concrete inputs: updating the sample record
(completion 50) with the all-omitted input stores completion 0. -/
theorem c9_witness :
    ∃ u, (UpdateKPI noFaults sampleStores 1 zeroInput 9).1 = Except.ok u ∧
      u.actualPercent = 0 ∧
      findDoc (UpdateKPI noFaults sampleStores 1 zeroInput 9).2.docs 1 =
        some u :=
  c9_update_persists_zero_percent noFaults sampleStores 1 zeroInput 9
    sampleDoc (by decide) (by decide) (by decide)

/-- C10. For every existing record, UpdateKPI leaves Goal unchanged
when the input Goal is empty, Description unchanged when the input
Description is empty, and DueDate unchanged when the input DueDate is
the zero time; the record's id, attachments, isDeleted flag and
createdBy/createdAt metadata are always unchanged, while ActualPercent
and the updatedBy/updatedAt metadata are taken from the input and the
current time. -/
theorem c10_update_frame (f : Faults) (st : Stores) (id : Nat)
    (kpi : KPIDevelopment) (now : Int) (r : KPIDevelopment)
    (hfind : findDoc st.docs id = some r)
    (hupd : f.updateFails = false) :
    ∃ u, (UpdateKPI f st id kpi now).1 = Except.ok u ∧
      findDoc (UpdateKPI f st id kpi now).2.docs id = some u ∧
      (kpi.goal = "" → u.goal = r.goal) ∧
      (kpi.description = "" → u.description = r.description) ∧
      (kpi.dueDate = 0 → u.dueDate = r.dueDate) ∧
      u.id = r.id ∧
      u.attachments = r.attachments ∧
      u.isDeleted = r.isDeleted ∧
      u.metadata.createdBy = r.metadata.createdBy ∧
      u.metadata.createdAt = r.metadata.createdAt ∧
      u.actualPercent = kpi.actualPercent ∧
      u.metadata.updatedBy = kpi.metadata.updatedBy ∧
      u.metadata.updatedAt = now := by
  have hid : r.id = id := by simpa using List.find?_some hfind
  have hmid : (mergeKPI r kpi now).id = id := hid
  have hsome : (findDoc st.docs id).isSome = true := by rw [hfind]; rfl
  have hrep := findDoc_replaceDoc hmid hfind
  refine ⟨mergeKPI r kpi now, ?_, ?_,
    fun h => by simp [mergeKPI, h],
    fun h => by simp [mergeKPI, h],
    fun h => by simp [mergeKPI, h],
    rfl, rfl, rfl, rfl, rfl, rfl, rfl, rfl⟩ <;>
    simp [UpdateKPI, GetByID, hfind, Update, hupd, hsome, hrep]

/-- Witness for C10 at concrete inputs: updating the sample record
with the all-omitted input leaves goal, description, due date and all
frame fields unchanged while resetting completion and refreshing the
audit fields. -/
theorem c10_witness :
    ∃ u, (UpdateKPI noFaults sampleStores 1 zeroInput 9).1 =
        Except.ok u ∧
      findDoc (UpdateKPI noFaults sampleStores 1 zeroInput 9).2.docs 1 =
        some u ∧
      (zeroInput.goal = "" → u.goal = sampleDoc.goal) ∧
      (zeroInput.description = "" → u.description = sampleDoc.description) ∧
      (zeroInput.dueDate = 0 → u.dueDate = sampleDoc.dueDate) ∧
      u.id = sampleDoc.id ∧
      u.attachments = sampleDoc.attachments ∧
      u.isDeleted = sampleDoc.isDeleted ∧
      u.metadata.createdBy = sampleDoc.metadata.createdBy ∧
      u.metadata.createdAt = sampleDoc.metadata.createdAt ∧
      u.actualPercent = zeroInput.actualPercent ∧
      u.metadata.updatedBy = zeroInput.metadata.updatedBy ∧
      u.metadata.updatedAt = 9 :=
  c10_update_frame noFaults sampleStores 1 zeroInput 9 sampleDoc
    (by decide) (by decide)

end KPIProject
